import Mathlib

/-
Verification of the adaptive polling / duplicate-suppression scheduler of the
truthsocial-trump-monitor repository.

The Lean definitions below are a shallow embedding of the Python source:
  - src/storage/models.py   : the Post and ScrapeLog rows
  - src/storage/database.py : DatabaseManager (upserts, notification flags,
                              scrape log, last-success lookup)
  - src/main.py             : TrumpMonitor (quiet window, min-gap skip,
                              scrape cycle, notification dispatch, startup)
  - src/runtime_config.py   : RuntimeConfigManager (hot-reloadable config)

Timestamps are modelled as Int seconds; the clock reading and the hour-of-day
in the US-Eastern reference timezone are explicit parameters.  Database rows
live in plain lists; the SQLAlchemy session with autoflush disabled is
modelled by keeping pending inserts invisible to existence checks until the
commit at the end of a batch (database.py save_posts_batch).  External
collaborators (fetch API, Feishu webhook, the MySQL engine itself) are
parameters: a fetch cycle receives the fetch outcome as an Except value and
the webhook push outcome as an explicit result value.
-/

/-- Status column of the scrape_logs table (models.py ScrapeLog.status;
only "success" and "failed" are ever written by main.py). -/
inductive ScrapeStatus
  | success
  | failed
deriving DecidableEq, Repr

/-- One row of the scrape_logs table (models.py ScrapeLog), with the fields
the scheduler reads and writes. -/
structure ScrapeLogEntry where
  status : ScrapeStatus
  total_fetched : Nat
  new_posts : Nat
  updated_posts : Nat
  error_message : Option String
  finished_at : Int
deriving DecidableEq, Repr

/-- The scrape section of the runtime configuration
(runtime_config.py ScrapeConfig). -/
structure ScrapeConfig where
  scrape_enabled : Bool
  normal_scrape_interval : Int
  sleep_scrape_interval : Int
  min_scrape_gap : Int
  trump_sleep_start_hour : Int
  trump_sleep_end_hour : Int
deriving DecidableEq, Repr

/-- The notification section of the runtime configuration
(runtime_config.py NotificationConfig), restricted to the fields the
scheduler core reads. -/
structure NotificationConfig where
  feishu_enabled : Bool
  realtime_enabled : Bool
deriving DecidableEq, Repr

/-- One row of the posts table (models.py Post), with the fields the
scheduler core reads and writes.  `id` is the autoincrement primary key,
`post_id` the stable external Truth Social id (unique). -/
structure Post where
  id : Nat
  post_id : String
  content : String
  url : String
  reblogs_count : Int
  favourites_count : Int
  replies_count : Int
  is_reblog : Bool
  posted_at : Int
  notified : Bool
deriving DecidableEq, Repr

/-- A parsed incoming post as produced by scrapecreators.py parse_post_data
(the dict handed to DatabaseManager.save_post / save_posts_batch; it carries
no `notified` key, so upserts never touch the notified flag). -/
structure PostData where
  post_id : String
  content : String
  url : String
  reblogs_count : Int
  favourites_count : Int
  replies_count : Int
  is_reblog : Bool
  posted_at : Int
deriving DecidableEq, Repr

/-- The posts table: committed rows plus the next autoincrement id. -/
structure PostStore where
  rows : List Post
  next_id : Nat
deriving DecidableEq, Repr

/-- database.py get_last_scrape_time: select the scrape_logs rows with
status "success", order by finished_at descending, return the first
finished_at — i.e. the maximal finished_at among successful entries. -/
def get_last_scrape_time (log : List ScrapeLogEntry) : Option Int :=
  (log.filter (fun e => e.status = ScrapeStatus.success)).foldl
    (fun acc e =>
      match acc with
      | none => some e.finished_at
      | some t => some (max t e.finished_at))
    none

/-- database.py get_post_count: total number of rows in the posts table. -/
def get_post_count (store : PostStore) : Nat :=
  store.rows.length

/-- The existence check of save_post / save_posts_batch
(scalar_one_or_none on a select by post_id): does a committed row with this
post_id exist? -/
def post_id_exists (rows : List Post) (pid : String) : Bool :=
  (rows.find? (fun p => p.post_id = pid)).isSome

/-- Applying the incoming dict to an existing row (the
`for key, value in filtered_data.items(): setattr(existing, key, value)`
loop of database.py, with key != "post_id" skipped): every field carried by
parse_post_data is overwritten except the external id; the notified flag is
untouched because the incoming dict has no such key. -/
def apply_post_update (d : PostData) (p : Post) : Post :=
  { p with
    content := d.content
    url := d.url
    reblogs_count := d.reblogs_count
    favourites_count := d.favourites_count
    replies_count := d.replies_count
    is_reblog := d.is_reblog
    posted_at := d.posted_at }

/-- Update the first row whose post_id matches (the row returned by
scalar_one_or_none) in place, leaving every other row unchanged. -/
def update_first (rows : List Post) (d : PostData) : List Post :=
  match rows with
  | [] => []
  | p :: ps =>
      if p.post_id = d.post_id then apply_post_update d p :: ps
      else p :: update_first ps d

/-- A freshly inserted row (Post(**filtered_data)): column defaults give
notified = False. -/
def mk_new_post (rowid : Nat) (d : PostData) : Post :=
  { id := rowid
    post_id := d.post_id
    content := d.content
    url := d.url
    reblogs_count := d.reblogs_count
    favourites_count := d.favourites_count
    replies_count := d.replies_count
    is_reblog := d.is_reblog
    posted_at := d.posted_at
    notified := false }

/-- database.py save_post: look the external id up; update the existing row
in place and report (row, False), or insert a fresh row and report
(row, True).  The Bool is the is_new flag of the Python return value. -/
def save_post (store : PostStore) (d : PostData) : PostStore × Bool :=
  if post_id_exists store.rows d.post_id then
    ({ store with rows := update_first store.rows d }, false)
  else
    ({ rows := store.rows ++ [mk_new_post store.next_id d]
       next_id := store.next_id + 1 }, true)

/-- Loop state of database.py save_posts_batch: the committed rows with the
in-place updates applied so far, the pending (not yet flushed) inserts, the
next autoincrement id, and the two counters.  The session is created with
autoflush=False, so the per-element existence SELECT never sees the pending
inserts — only `rows`. -/
structure BatchAcc where
  rows : List Post
  pending : List Post
  next_id : Nat
  new_count : Nat
  updated_count : Nat
deriving DecidableEq, Repr

/-- One iteration of the save_posts_batch loop. -/
def save_posts_batch_step (b : BatchAcc) (d : PostData) : BatchAcc :=
  if post_id_exists b.rows d.post_id then
    { b with
      rows := update_first b.rows d
      updated_count := b.updated_count + 1 }
  else
    { b with
      pending := b.pending ++ [mk_new_post b.next_id d]
      next_id := b.next_id + 1
      new_count := b.new_count + 1 }

/-- database.py save_posts_batch: iterate the upsert loop over the input
list, then commit (the pending inserts become rows); return the new store
and the (new_count, updated_count) pair. -/
def save_posts_batch (store : PostStore) (ds : List PostData) :
    PostStore × Nat × Nat :=
  let b := ds.foldl save_posts_batch_step
    { rows := store.rows
      pending := []
      next_id := store.next_id
      new_count := 0
      updated_count := 0 }
  ({ rows := b.rows ++ b.pending, next_id := b.next_id }, b.new_count,
    b.updated_count)

/-- Descending-by-posted_at insertion, modelling the ORDER BY posted_at DESC
of the unnotified-posts query. -/
def insert_by_posted_desc (p : Post) : List Post → List Post
  | [] => [p]
  | q :: qs =>
      if q.posted_at ≤ p.posted_at then p :: q :: qs
      else q :: insert_by_posted_desc p qs

/-- Sort rows by posted_at descending. -/
def sort_by_posted_desc (rows : List Post) : List Post :=
  rows.foldr insert_by_posted_desc []

/-- database.py get_unnotified_posts: rows with notified = False, ordered by
posted_at descending, limited. -/
def get_unnotified_posts (store : PostStore) (limit : Nat) : List Post :=
  (sort_by_posted_desc (store.rows.filter (fun p => p.notified = false))).take
    limit

/-- database.py mark_posts_notified: UPDATE posts SET notified = True WHERE
id IN post_ids. -/
def mark_posts_notified (store : PostStore) (post_ids : List Nat) : PostStore :=
  { store with
    rows := store.rows.map (fun p =>
      if post_ids.contains p.id then { p with notified := true } else p) }

/-- database.py mark_all_posts_notified: UPDATE posts SET notified = True
WHERE notified = False. -/
def mark_all_posts_notified (store : PostStore) : PostStore :=
  { store with
    rows := store.rows.map (fun p =>
      if p.notified then p else { p with notified := true }) }

/-- The log entry written by main.py's except-branch
(db.log_scrape(status="failed", error_message=str(e))): counters default to
zero. -/
def failed_entry (msg : String) (now : Int) : ScrapeLogEntry :=
  { status := ScrapeStatus.failed
    total_fetched := 0
    new_posts := 0
    updated_posts := 0
    error_message := some msg
    finished_at := now }

/-- The log entry written after a successful cycle
(db.log_scrape(status="success", ...)). -/
def success_entry (total new upd : Nat) (now : Int) : ScrapeLogEntry :=
  { status := ScrapeStatus.success
    total_fetched := total
    new_posts := new
    updated_posts := upd
    error_message := none
    finished_at := now }

/-- main.py is_trump_sleeping: the quiet (sleep) window test against the
current US-Eastern hour — a half-open range
trump_sleep_start_hour <= hour < trump_sleep_end_hour. -/
def is_trump_sleeping (cfg : ScrapeConfig) (hour : Int) : Bool :=
  decide (cfg.trump_sleep_start_hour ≤ hour) && decide (hour < cfg.trump_sleep_end_hour)

/-- main.py get_current_interval: the sleep interval during the quiet
window, the normal interval otherwise. -/
def get_current_interval (cfg : ScrapeConfig) (hour : Int) : Int :=
  if is_trump_sleeping cfg hour then cfg.sleep_scrape_interval
  else cfg.normal_scrape_interval

/-- main.py should_skip_scrape, after the last-success lookup: with no prior
successful scrape the cycle runs; otherwise it is skipped exactly when
now - last < min_scrape_gap.  (The function also returns False — run — when
the database handle is absent; the handle is assumed present here, as it is
after init().) -/
def should_skip_scrape (cfg : ScrapeConfig) (last : Option Int) (now : Int) :
    Bool :=
  match last with
  | none => false
  | some t => decide (now - t < cfg.min_scrape_gap)

/-- Outcome of one Feishu webhook push (send_trump_post / send_batch_posts):
the call returns True, returns False, or raises (the raise is caught by
send_notifications' own except-branch). -/
inductive PushOutcome
  | success
  | failure
  | raised (msg : String)
deriving DecidableEq, Repr

/-- main.py send_notifications, with the push outcome as a parameter: fetch
up to 10 unnotified rows; if none, do nothing; otherwise invoke the notifier
once (single or batch message) and mark exactly the fetched rows notified
when and only when the push returned success.  The Nat result counts
notifier invocations.  A raised push is caught by the surrounding
except-branch, so nothing is marked and nothing propagates. -/
def send_notifications (store : PostStore) (push : PushOutcome) :
    PostStore × Nat :=
  let unnotified := get_unnotified_posts store 10
  if unnotified.isEmpty then (store, 0)
  else
    match push with
    | PushOutcome.success =>
        (mark_posts_notified store (unnotified.map (fun p => p.id)), 1)
    | _ => (store, 1)

/-- The TrumpMonitor state a scrape cycle reads and writes: the posts table,
the scrape log, the is_first_run flag, the active interval, and whether a
Feishu client is configured (self.feishu is not None). -/
structure CycleState where
  store : PostStore
  log : List ScrapeLogEntry
  is_first_run : Bool
  current_interval : Int
  feishu_configured : Bool
deriving DecidableEq, Repr

/-- The per-cycle inputs: the clock reading (seconds), the US-Eastern
hour-of-day, the fetch outcome (a raised fetch exception is the error case),
and the webhook push outcome used if the cycle notifies. -/
structure CycleInput where
  now : Int
  hour_est : Int
  fetch : Except String (List PostData)
  push : PushOutcome

/-- The skip branch of main.py scrape_and_notify: when the cycle is skipped
and this is still the first run but the table already has rows, clear
is_first_run. -/
def skip_path (st : CycleState) : CycleState :=
  if st.is_first_run && decide (0 < get_post_count st.store) then
    { st with is_first_run := false }
  else st

/-- The notification dispatch at the end of main.py scrape_and_notify:
with new rows, a configured Feishu client and realtime push enabled, a
first-run cycle marks everything notified without sending (backlog
suppression) and a later cycle calls send_notifications; with new rows but
realtime push disabled, everything is marked notified without sending;
otherwise nothing happens.  Note that the branch never writes
is_first_run. -/
def notify_section (ncfg : NotificationConfig) (st : CycleState)
    (push : PushOutcome) (new_count : Nat) : CycleState × Nat :=
  if decide (0 < new_count) && st.feishu_configured && ncfg.realtime_enabled then
    if st.is_first_run then
      ({ st with store := mark_all_posts_notified st.store }, 0)
    else
      let r := send_notifications st.store push
      ({ st with store := r.1 }, r.2)
  else if decide (0 < new_count) && !ncfg.realtime_enabled then
    ({ st with store := mark_all_posts_notified st.store }, 0)
  else (st, 0)

/-- main.py scrape_and_notify as a state transition (the scraper client is
assumed configured, as it is whenever an API key is set).  The min-gap check
runs first; then the interval is reconciled against the target for the
current hour; then the fetch outcome is handled: an exception appends a
failed log entry and returns (the except-branch — the transition is total,
nothing propagates), an empty result appends a success entry, and a
non-empty result is upserted, logged, and dispatched to the notification
section.  The Nat result counts notifier invocations. -/
def scrape_and_notify (cfg : ScrapeConfig) (ncfg : NotificationConfig)
    (st : CycleState) (inp : CycleInput) : CycleState × Nat :=
  if should_skip_scrape cfg (get_last_scrape_time st.log) inp.now then
    (skip_path st, 0)
  else
    let st1 := { st with current_interval := get_current_interval cfg inp.hour_est }
    match inp.fetch with
    | Except.error e =>
        ({ st1 with log := st1.log ++ [failed_entry e inp.now] }, 0)
    | Except.ok posts =>
        if posts.isEmpty then
          ({ st1 with log := st1.log ++ [success_entry 0 0 0 inp.now] }, 0)
        else
          let r := save_posts_batch st1.store posts
          let st2 := { st1 with
            store := r.1
            log := st1.log ++ [success_entry posts.length r.2.1 r.2.2 inp.now] }
          notify_section ncfg st2 inp.push r.2.1

/-- The immediate-first-scrape section at the end of main.py start()
(the block after scheduler.start()): when scraping is enabled and the gap
since the last success is at least min_scrape_gap (or there is no last
success), run one cycle immediately and then unconditionally clear
is_first_run; when the immediate cycle is skipped and the table already has
rows, clear is_first_run without scraping. -/
def startup_first_scrape (cfg : ScrapeConfig) (ncfg : NotificationConfig)
    (st : CycleState) (inp : CycleInput) : CycleState × Nat :=
  let skip_start : Bool :=
    cfg.scrape_enabled &&
      (match get_last_scrape_time st.log with
       | none => false
       | some t => decide (inp.now - t < cfg.min_scrape_gap))
  if cfg.scrape_enabled && !skip_start then
    let r := scrape_and_notify cfg ncfg st inp
    ({ r.1 with is_first_run := false }, r.2)
  else if skip_start && decide (0 < get_post_count st.store) then
    ({ st with is_first_run := false }, 0)
  else (st, 0)

/-- Result of an interval reconciliation, as in the spec's
reconcileInterval operation. -/
inductive ReconcileResult
  | unchanged
  | rescheduled (newInterval : Int)
deriving DecidableEq, Repr

/-- The interval adjustment at the top of a scrape cycle
(main.py scrape_and_notify, the block after the skip check): compare the
target interval for the current hour with the active one and reschedule the
job when they differ. -/
def cycle_top_reconcile (cfg : ScrapeConfig) (current hour : Int) :
    Int × ReconcileResult :=
  let target := get_current_interval cfg hour
  if target ≠ current then (target, ReconcileResult.rescheduled target)
  else (current, ReconcileResult.unchanged)

/-- main.py _reload_config, the 5-minute reconciliation tick: after
re-reading the persisted config, the scrape interval is recomputed and the
job rescheduled ONLY when the reload changed the normal or the sleep
interval field; with both fields unchanged the tick leaves the active
interval alone, whatever the current hour says the target is. -/
def reload_config (old_cfg new_cfg : ScrapeConfig) (current hour : Int) :
    Int × ReconcileResult :=
  if old_cfg.normal_scrape_interval ≠ new_cfg.normal_scrape_interval ∨
      old_cfg.sleep_scrape_interval ≠ new_cfg.sleep_scrape_interval then
    let target := get_current_interval new_cfg hour
    if target ≠ current then (target, ReconcileResult.rescheduled target)
    else (current, ReconcileResult.unchanged)
  else (current, ReconcileResult.unchanged)

/-- The full runtime configuration (runtime_config.py RuntimeConfig),
restricted to the sections the scheduler core reads. -/
structure RuntimeCfg where
  scrape : ScrapeConfig
  notification : NotificationConfig
  translate_enabled : Bool
deriving DecidableEq, Repr

/-- The state of runtime_config.py RuntimeConfigManager: the in-memory
singleton configuration (the one every scheduler decision reads) and the
persisted layer (the system_config row, absent before first save). -/
structure ConfigManagerState where
  mem : RuntimeCfg
  db : Option RuntimeCfg
deriving DecidableEq, Repr

/-- runtime_config.py save_to_db, with the database write outcome as a
parameter: on success the persisted row is replaced by the in-memory
configuration and True is returned; a raising write is caught and False is
returned, with both layers left as they were. -/
def save_to_db (s : ConfigManagerState) (db_ok : Bool) :
    ConfigManagerState × Bool :=
  if db_ok then ({ s with db := some s.mem }, true) else (s, false)

/-- runtime_config.py update_scrape: the in-memory scrape section is
replaced FIRST, then save_to_db is attempted; the Bool result is the save
outcome. -/
def update_scrape (s : ConfigManagerState) (c : ScrapeConfig) (db_ok : Bool) :
    ConfigManagerState × Bool :=
  save_to_db { s with mem := { s.mem with scrape := c } } db_ok

/-- runtime_config.py load_from_db (also reload), with the database read
outcome as a parameter: on success, an existing persisted row replaces the
in-memory configuration; with no persisted row the current in-memory
configuration is saved as the initial one; a raising read is caught and
leaves everything unchanged. -/
def load_from_db (s : ConfigManagerState) (db_ok : Bool) :
    ConfigManagerState × Bool :=
  if db_ok then
    match s.db with
    | some c => ({ s with mem := c }, true)
    | none => ({ s with db := some s.mem }, true)
  else (s, false)

/-- The default scrape configuration (runtime_config.py field defaults:
1h normal, 6h sleep, 300s min gap, quiet window 0-7 US-Eastern). -/
def cfgD : ScrapeConfig :=
  { scrape_enabled := true
    normal_scrape_interval := 3600
    sleep_scrape_interval := 21600
    min_scrape_gap := 300
    trump_sleep_start_hour := 0
    trump_sleep_end_hour := 7 }

/-- A configuration whose quiet window is empty (start = end = 3). -/
def cfgEmptyWindow : ScrapeConfig :=
  { cfgD with trump_sleep_start_hour := 3, trump_sleep_end_hour := 3 }

/-- The default notification configuration (both toggles on). -/
def ncfgD : NotificationConfig :=
  { feishu_enabled := true, realtime_enabled := true }

/-- Claim C1: the scrape-now decision.  With no last successful scrape the
decision is run; otherwise the cycle is skipped exactly when
now - last < min_scrape_gap; in particular, for every last time t and every
configuration, deciding at t + min_scrape_gap - 1 yields skip and deciding
at t + min_scrape_gap yields run. -/
theorem should_skip_scrape_min_gap (cfg : ScrapeConfig) (t now : Int) :
    should_skip_scrape cfg none now = false ∧
    should_skip_scrape cfg (some t) now = decide (now - t < cfg.min_scrape_gap) ∧
    should_skip_scrape cfg (some t) (t + cfg.min_scrape_gap - 1) = true ∧
    should_skip_scrape cfg (some t) (t + cfg.min_scrape_gap) = false := by
  refine ⟨rfl, rfl, ?_, ?_⟩ <;>
    simp only [should_skip_scrape, decide_eq_true_eq, decide_eq_false_iff_not] <;>
    omega

/-- Claim C2: the quiet-window test is half-open: hour h is quiet exactly
when trump_sleep_start_hour <= h < trump_sleep_end_hour, and the interval is
the sleep one exactly on quiet hours; if start = end, no hour is ever quiet
and every hour gets the normal interval; with the default window 0-7, hour 6
is quiet and hour 7 is normal. -/
theorem quiet_window_half_open (cfg : ScrapeConfig) (h : Int) :
    (is_trump_sleeping cfg h = true ↔
      cfg.trump_sleep_start_hour ≤ h ∧ h < cfg.trump_sleep_end_hour) ∧
    (get_current_interval cfg h =
      if is_trump_sleeping cfg h then cfg.sleep_scrape_interval
      else cfg.normal_scrape_interval) ∧
    (cfg.trump_sleep_start_hour = cfg.trump_sleep_end_hour →
      is_trump_sleeping cfg h = false ∧
      get_current_interval cfg h = cfg.normal_scrape_interval) ∧
    (cfg.trump_sleep_start_hour = 0 → cfg.trump_sleep_end_hour = 7 →
      is_trump_sleeping cfg 6 = true ∧ is_trump_sleeping cfg 7 = false ∧
      get_current_interval cfg 6 = cfg.sleep_scrape_interval ∧
      get_current_interval cfg 7 = cfg.normal_scrape_interval) := by
  refine ⟨?_, rfl, ?_, ?_⟩
  · simp [is_trump_sleeping]
  · intro heq
    have hq : is_trump_sleeping cfg h = false := by
      simp only [is_trump_sleeping, heq]
      simp only [Bool.and_eq_false_iff, decide_eq_false_iff_not]
      omega
    exact ⟨hq, by simp [get_current_interval, hq]⟩
  · intro h0 h7
    have h6 : is_trump_sleeping cfg 6 = true := by
      simp only [is_trump_sleeping, h0, h7]; decide
    have h7' : is_trump_sleeping cfg 7 = false := by
      simp only [is_trump_sleeping, h0, h7]; decide
    exact ⟨h6, h7', by simp [get_current_interval, h6],
      by simp [get_current_interval, h7']⟩

/-- Witness for claim C2 at the default configuration and the empty-window
configuration. -/
theorem quiet_window_half_open_witness :
    (is_trump_sleeping cfgD 6 = true ∧ is_trump_sleeping cfgD 7 = false ∧
      get_current_interval cfgD 6 = cfgD.sleep_scrape_interval ∧
      get_current_interval cfgD 7 = cfgD.normal_scrape_interval) ∧
    (is_trump_sleeping cfgEmptyWindow 3 = false ∧
      get_current_interval cfgEmptyWindow 3 =
        cfgEmptyWindow.normal_scrape_interval) :=
  ⟨(quiet_window_half_open cfgD 6).2.2.2 rfl rfl,
   (quiet_window_half_open cfgEmptyWindow 3).2.2.1 rfl⟩

/-- Appending a non-success log entry does not change the last successful
scrape time: the lookup filters on status = success first. -/
theorem get_last_scrape_time_append_failed (log : List ScrapeLogEntry)
    (e : ScrapeLogEntry) (he : e.status = ScrapeStatus.failed) :
    get_last_scrape_time (log ++ [e]) = get_last_scrape_time log := by
  unfold get_last_scrape_time
  rw [List.filter_append]
  have : List.filter (fun x => decide (x.status = ScrapeStatus.success)) [e] = [] := by
    simp [List.filter, he]
  rw [this, List.append_nil]

/-- Claim C3: a fetch-cycle exception is contained: the cycle (a total
transition — nothing propagates to the scheduler loop) appends exactly one
ScrapeLogEntry with status failed carrying the error message, makes zero
notifier invocations, leaves the posts table untouched, and does not advance
the last successful scrape time — get_last_scrape_time returns the same
value after the failed cycle as before it. -/
theorem failed_cycle_contained (cfg : ScrapeConfig) (ncfg : NotificationConfig)
    (st : CycleState) (inp : CycleInput) (msg : String)
    (hrun : should_skip_scrape cfg (get_last_scrape_time st.log) inp.now = false)
    (herr : inp.fetch = Except.error msg) :
    (scrape_and_notify cfg ncfg st inp).1.log = st.log ++ [failed_entry msg inp.now] ∧
    (failed_entry msg inp.now).status = ScrapeStatus.failed ∧
    (failed_entry msg inp.now).error_message = some msg ∧
    get_last_scrape_time (scrape_and_notify cfg ncfg st inp).1.log =
      get_last_scrape_time st.log ∧
    (scrape_and_notify cfg ncfg st inp).1.store = st.store ∧
    (scrape_and_notify cfg ncfg st inp).2 = 0 := by
  have hres : scrape_and_notify cfg ncfg st inp =
      ({ st with
          current_interval := get_current_interval cfg inp.hour_est
          log := st.log ++ [failed_entry msg inp.now] }, 0) := by
    unfold scrape_and_notify
    rw [hrun, herr]
    simp
  rw [hres]
  refine ⟨rfl, rfl, rfl, ?_, rfl, rfl⟩
  exact get_last_scrape_time_append_failed st.log _ rfl

/-- Witness for claim C3: a concrete failing cycle on an empty state. -/
theorem failed_cycle_contained_witness :
    (scrape_and_notify cfgD ncfgD
        { store := { rows := [], next_id := 1 }
          log := []
          is_first_run := true
          current_interval := 3600
          feishu_configured := true }
        { now := 1000, hour_est := 12,
          fetch := Except.error "network timeout",
          push := PushOutcome.success }).1.log =
      [] ++ [failed_entry "network timeout" 1000] ∧
    get_last_scrape_time
      (scrape_and_notify cfgD ncfgD
        { store := { rows := [], next_id := 1 }
          log := []
          is_first_run := true
          current_interval := 3600
          feishu_configured := true }
        { now := 1000, hour_est := 12,
          fetch := Except.error "network timeout",
          push := PushOutcome.success }).1.log =
      get_last_scrape_time [] := by
  have h := failed_cycle_contained cfgD ncfgD
    { store := { rows := [], next_id := 1 }
      log := []
      is_first_run := true
      current_interval := 3600
      feishu_configured := true }
    { now := 1000, hour_est := 12,
      fetch := Except.error "network timeout",
      push := PushOutcome.success }
    "network timeout" (by decide) rfl
  exact ⟨h.1, h.2.2.2.1⟩

/-- Membership through the descending insertion used by the unnotified
query's ordering. -/
theorem mem_insert_by_posted_desc (q p : Post) (l : List Post)
    (h : p ∈ insert_by_posted_desc q l) : p = q ∨ p ∈ l := by
  induction l with
  | nil => simpa [insert_by_posted_desc] using h
  | cons r rs ih =>
      by_cases hc : r.posted_at ≤ q.posted_at
      · simp only [insert_by_posted_desc, if_pos hc, List.mem_cons] at h
        rcases h with h | h | h
        · exact Or.inl h
        · exact Or.inr (by simp [h])
        · exact Or.inr (by simp [h])
      · simp only [insert_by_posted_desc, if_neg hc, List.mem_cons] at h
        rcases h with h | h
        · exact Or.inr (by simp [h])
        · rcases ih h with h' | h'
          · exact Or.inl h'
          · exact Or.inr (by simp [h'])

/-- Membership through the descending sort. -/
theorem mem_sort_by_posted_desc (p : Post) (l : List Post)
    (h : p ∈ sort_by_posted_desc l) : p ∈ l := by
  induction l with
  | nil => simp [sort_by_posted_desc] at h
  | cons r rs ih =>
      have h' : p ∈ insert_by_posted_desc r (sort_by_posted_desc rs) := h
      rcases mem_insert_by_posted_desc r p _ h' with h'' | h''
      · simp [h'']
      · exact List.mem_cons_of_mem _ (ih h'')

/-- Every row returned by the unnotified query is a table row with
notified = false. -/
theorem mem_get_unnotified (store : PostStore) (limit : Nat) (p : Post)
    (h : p ∈ get_unnotified_posts store limit) :
    p ∈ store.rows ∧ p.notified = false := by
  unfold get_unnotified_posts at h
  have h1 := List.mem_of_mem_take h
  have h2 := mem_sort_by_posted_desc p _ h1
  have h3 := List.mem_filter.mp h2
  exact ⟨h3.1, by simpa using h3.2⟩

/-- Claim C4: at-least-once notification.  If the push does not succeed
(returns False or raises), the posts table is unchanged — in particular
every previously-unnotified row still has notified = false — and the next
unnotified query returns exactly the same rows; the fetched (pushed) rows
are all unnotified; and on a successful push exactly the pushed rows are
marked: a table row whose id was pushed reappears with notified = true, and
a table row whose id was not pushed reappears unchanged. -/
theorem notify_at_least_once (store : PostStore) (push : PushOutcome) :
    (push ≠ PushOutcome.success →
      (send_notifications store push).1 = store ∧
      get_unnotified_posts (send_notifications store push).1 10 =
        get_unnotified_posts store 10) ∧
    (∀ p ∈ get_unnotified_posts store 10, p.notified = false) ∧
    (∀ p ∈ store.rows,
      p.id ∈ (get_unnotified_posts store 10).map (fun q => q.id) →
      { p with notified := true } ∈
        (send_notifications store PushOutcome.success).1.rows) ∧
    (∀ p ∈ store.rows,
      p.id ∉ (get_unnotified_posts store 10).map (fun q => q.id) →
      p ∈ (send_notifications store PushOutcome.success).1.rows) := by
  refine ⟨?_, ?_, ?_, ?_⟩
  · intro hne
    have hst : (send_notifications store push).1 = store := by
      by_cases hempty : (get_unnotified_posts store 10).isEmpty
      · simp [send_notifications, hempty]
      · cases push with
        | success => exact absurd rfl hne
        | failure => simp [send_notifications, hempty]
        | raised m => simp [send_notifications, hempty]
    exact ⟨hst, by rw [hst]⟩
  · intro p hp
    exact (mem_get_unnotified store 10 p hp).2
  · intro p hp hid
    by_cases hempty : (get_unnotified_posts store 10).isEmpty
    · rw [List.isEmpty_iff] at hempty
      rw [hempty] at hid
      simp at hid
    · have hres : (send_notifications store PushOutcome.success).1 =
          mark_posts_notified store
            ((get_unnotified_posts store 10).map (fun p => p.id)) := by
        simp [send_notifications, hempty]
      rw [hres]
      have hc : ((get_unnotified_posts store 10).map (fun q => q.id)).contains p.id
          = true := by simpa using hid
      have hfp : (fun q =>
          if ((get_unnotified_posts store 10).map (fun p => p.id)).contains q.id
          then { q with notified := true } else q) p
          = { p with notified := true } := by
        simp only [hc, if_true]
      show { p with notified := true } ∈ store.rows.map (fun q =>
        if ((get_unnotified_posts store 10).map (fun p => p.id)).contains q.id
        then { q with notified := true } else q)
      rw [← hfp]
      exact List.mem_map_of_mem _ hp
  · intro p hp hid
    by_cases hempty : (get_unnotified_posts store 10).isEmpty
    · have hres : (send_notifications store PushOutcome.success).1 = store := by
        simp [send_notifications, hempty]
      rw [hres]
      exact hp
    · have hres : (send_notifications store PushOutcome.success).1 =
          mark_posts_notified store
            ((get_unnotified_posts store 10).map (fun p => p.id)) := by
        simp [send_notifications, hempty]
      rw [hres]
      have hc : ((get_unnotified_posts store 10).map (fun q => q.id)).contains p.id
          = false := by simpa using hid
      have hfp : (fun q =>
          if ((get_unnotified_posts store 10).map (fun p => p.id)).contains q.id
          then { q with notified := true } else q) p = p := by
        simp only [hc, if_false, Bool.false_eq_true]
      show p ∈ store.rows.map (fun q =>
        if ((get_unnotified_posts store 10).map (fun p => p.id)).contains q.id
        then { q with notified := true } else q)
      rw [← hfp]
      exact List.mem_map_of_mem _ hp

/-- A concrete unnotified row. -/
def postW1 : Post :=
  { id := 1, post_id := "111", content := "hello", url := "u1",
    reblogs_count := 1, favourites_count := 2, replies_count := 0,
    is_reblog := false, posted_at := 100, notified := false }

/-- A concrete already-notified row. -/
def postW2 : Post :=
  { id := 2, post_id := "222", content := "world", url := "u2",
    reblogs_count := 0, favourites_count := 0, replies_count := 3,
    is_reblog := true, posted_at := 50, notified := true }

/-- A concrete posts table with one unnotified and one notified row. -/
def storeW : PostStore := { rows := [postW1, postW2], next_id := 3 }

/-- Witness for claim C4: on the concrete table, a failed push leaves the
table unchanged, and a successful push marks the unnotified row. -/
theorem notify_at_least_once_witness :
    (send_notifications storeW PushOutcome.failure).1 = storeW ∧
    { postW1 with notified := true } ∈
      (send_notifications storeW PushOutcome.success).1.rows :=
  ⟨((notify_at_least_once storeW PushOutcome.failure).1 (by decide)).1,
   (notify_at_least_once storeW PushOutcome.success).2.2.1 postW1 (by decide)
     (by decide)⟩

/-- Every row is notified after mark_all_posts_notified. -/
theorem mark_all_posts_notified_all (store : PostStore) (p : Post)
    (h : p ∈ (mark_all_posts_notified store).rows) : p.notified = true := by
  unfold mark_all_posts_notified at h
  simp only [List.mem_map] at h
  obtain ⟨q, hq, rfl⟩ := h
  by_cases hn : q.notified <;> simp [hn]

/-- On a first-run cycle with new rows, a configured Feishu client and
realtime push enabled, the notification section marks everything notified
and makes zero notifier invocations, leaving is_first_run alone. -/
theorem notify_section_first_run (ncfg : NotificationConfig) (st : CycleState)
    (push : PushOutcome) (n : Nat) (hn : 0 < n) (hfirst : st.is_first_run = true)
    (hfeishu : st.feishu_configured = true) (hrt : ncfg.realtime_enabled = true) :
    notify_section ncfg st push n =
      ({ st with store := mark_all_posts_notified st.store }, 0) := by
  unfold notify_section
  simp [hn, hfirst, hfeishu, hrt]

/-- Shape of a non-skipped cycle with a non-empty successful fetch: upsert,
log a success entry, then dispatch to the notification section. -/
theorem scrape_and_notify_run_ok (cfg : ScrapeConfig) (ncfg : NotificationConfig)
    (st : CycleState) (inp : CycleInput) (posts : List PostData)
    (hskip : should_skip_scrape cfg (get_last_scrape_time st.log) inp.now = false)
    (hfetch : inp.fetch = Except.ok posts)
    (hne : posts.isEmpty = false) :
    scrape_and_notify cfg ncfg st inp =
      notify_section ncfg
        { st with
          current_interval := get_current_interval cfg inp.hour_est
          store := (save_posts_batch st.store posts).1
          log := st.log ++ [success_entry posts.length
            (save_posts_batch st.store posts).2.1
            (save_posts_batch st.store posts).2.2 inp.now] }
        inp.push (save_posts_batch st.store posts).2.1 := by
  unfold scrape_and_notify
  rw [hskip, hfetch]
  simp [hne]

/-- Five concrete incoming posts with fresh external ids. -/
def pdW (i : Nat) : PostData :=
  { post_id := toString i, content := "c", url := "u",
    reblogs_count := 0, favourites_count := 0, replies_count := 0,
    is_reblog := false, posted_at := Int.ofNat i }

/-- A cold cycle state (empty table, empty log, first run) with a configured
Feishu client. -/
def stColdFeishu : CycleState :=
  { store := { rows := [], next_id := 1 }
    log := []
    is_first_run := true
    current_interval := 3600
    feishu_configured := true }

/-- The same cold state with no Feishu client configured. -/
def stColdNoFeishu : CycleState :=
  { stColdFeishu with feishu_configured := false }

/-- A cycle input delivering five fresh posts. -/
def inpFive : CycleInput :=
  { now := 1000, hour_est := 12,
    fetch := Except.ok [pdW 1, pdW 2, pdW 3, pdW 4, pdW 5],
    push := PushOutcome.success }

/-- Counterexample to claim C5: a cycle executed while is_first_run is true
that inserts five new posts does NOT clear is_first_run (the flag is still
true after the cycle; it is only cleared by the startup sequence or by a
skipped cycle over a non-empty table); moreover, with no notifier configured
the five inserted rows are NOT marked notified, contradicting the claim's
unconditional "all newly-inserted rows end with notified = true". -/
theorem backlog_first_run_cex :
    (scrape_and_notify cfgD ncfgD stColdFeishu inpFive).1.is_first_run = true ∧
    (scrape_and_notify cfgD ncfgD stColdFeishu inpFive).2 = 0 ∧
    ((scrape_and_notify cfgD ncfgD stColdFeishu inpFive).1.store.rows.filter
        (fun p => p.notified = false)).length = 0 ∧
    (scrape_and_notify cfgD ncfgD stColdFeishu inpFive).1.store.rows.length = 5 ∧
    ((scrape_and_notify cfgD ncfgD stColdNoFeishu inpFive).1.store.rows.filter
        (fun p => p.notified = false)).length = 5 := by decide

/-- Claim C5 amended: for every cycle executed while is_first_run is true
that inserts newCount > 0 new posts, PROVIDED a Feishu client is configured
and realtime push is enabled, every row of the resulting table (in
particular every newly-inserted row) ends with notified = true and the
notifier is invoked zero times; is_first_run is NOT cleared by the cycle
itself — it is still true afterwards (it is cleared only by the startup
sequence after the first immediate cycle, or by a skipped cycle that finds
the table non-empty). -/
theorem backlog_suppression_amended (cfg : ScrapeConfig)
    (ncfg : NotificationConfig) (st : CycleState) (inp : CycleInput)
    (posts : List PostData)
    (hskip : should_skip_scrape cfg (get_last_scrape_time st.log) inp.now = false)
    (hfetch : inp.fetch = Except.ok posts)
    (hne : posts.isEmpty = false)
    (hnew : 0 < (save_posts_batch st.store posts).2.1)
    (hfirst : st.is_first_run = true)
    (hfeishu : st.feishu_configured = true)
    (hrt : ncfg.realtime_enabled = true) :
    (∀ p ∈ (scrape_and_notify cfg ncfg st inp).1.store.rows, p.notified = true) ∧
    (scrape_and_notify cfg ncfg st inp).2 = 0 ∧
    (scrape_and_notify cfg ncfg st inp).1.is_first_run = true := by
  rw [scrape_and_notify_run_ok cfg ncfg st inp posts hskip hfetch hne,
    notify_section_first_run ncfg
      { st with
        current_interval := get_current_interval cfg inp.hour_est
        store := (save_posts_batch st.store posts).1
        log := st.log ++ [success_entry posts.length
          (save_posts_batch st.store posts).2.1
          (save_posts_batch st.store posts).2.2 inp.now] }
      inp.push (save_posts_batch st.store posts).2.1 hnew hfirst hfeishu hrt]
  refine ⟨?_, rfl, hfirst⟩
  intro p hp
  exact mark_all_posts_notified_all _ p hp

/-- Witness for the amended claim C5 at the concrete cold state. -/
theorem backlog_suppression_amended_witness :
    (scrape_and_notify cfgD ncfgD stColdFeishu inpFive).2 = 0 ∧
    (scrape_and_notify cfgD ncfgD stColdFeishu inpFive).1.is_first_run = true :=
  ⟨(backlog_suppression_amended cfgD ncfgD stColdFeishu inpFive
      [pdW 1, pdW 2, pdW 3, pdW 4, pdW 5] (by decide) rfl (by decide) (by decide)
      rfl rfl rfl).2.1,
   (backlog_suppression_amended cfgD ncfgD stColdFeishu inpFive
      [pdW 1, pdW 2, pdW 3, pdW 4, pdW 5] (by decide) rfl (by decide) (by decide)
      rfl rfl rfl).2.2⟩

/-- Number of table rows carrying a given external id. -/
def count_id (rows : List Post) (pid : String) : Nat :=
  (rows.filter (fun p => p.post_id = pid)).length

/-- The posts-table invariant enforced by the unique constraint on post_id
(models.py): the external ids of the rows are pairwise distinct. -/
def unique_ids (rows : List Post) : Prop :=
  (rows.map (fun p => p.post_id)).Nodup

/-- A committed row with a given external id exists exactly when the id
occurs among the rows' external ids. -/
theorem post_id_exists_iff (rows : List Post) (pid : String) :
    post_id_exists rows pid = true ↔ pid ∈ rows.map (fun p => p.post_id) := by
  unfold post_id_exists
  rw [List.find?_isSome]
  simp [List.mem_map]

/-- An in-place update never changes the list of external ids. -/
theorem update_first_map_post_id (rows : List Post) (d : PostData) :
    (update_first rows d).map (fun p => p.post_id) =
      rows.map (fun p => p.post_id) := by
  induction rows with
  | nil => rfl
  | cons p ps ih =>
      unfold update_first
      by_cases h : p.post_id = d.post_id
      · rw [if_pos h]
        simp [apply_post_update]
      · rw [if_neg h]
        simp [ih]

/-- An in-place update never changes existence of any external id. -/
theorem post_id_exists_update_first (rows : List Post) (d : PostData)
    (pid : String) :
    post_id_exists (update_first rows d) pid = post_id_exists rows pid := by
  have h : post_id_exists (update_first rows d) pid = true ↔
      post_id_exists rows pid = true := by
    rw [post_id_exists_iff, post_id_exists_iff, update_first_map_post_id]
  cases h2 : post_id_exists rows pid
  · cases h3 : post_id_exists (update_first rows d) pid
    · rfl
    · exact absurd (h.mp h3) (by simp [h2])
  · exact h.mpr h2

/-- An in-place update never changes the number of rows. -/
theorem update_first_length (rows : List Post) (d : PostData) :
    (update_first rows d).length = rows.length := by
  induction rows with
  | nil => rfl
  | cons p ps ih =>
      unfold update_first
      by_cases h : p.post_id = d.post_id
      · rw [if_pos h]; rfl
      · rw [if_neg h]; simp [ih]

/-- An in-place update never changes the per-id row count. -/
theorem count_id_update_first (rows : List Post) (d : PostData) (pid : String) :
    count_id (update_first rows d) pid = count_id rows pid := by
  induction rows with
  | nil => rfl
  | cons p ps ih =>
      unfold update_first
      by_cases h : p.post_id = d.post_id
      · rw [if_pos h]
        unfold count_id
        simp only [List.filter_cons]
        have : (apply_post_update d p).post_id = p.post_id := rfl
        rw [this]
        split <;> simp
      · rw [if_neg h]
        unfold count_id
        simp only [List.filter_cons]
        unfold count_id at ih
        split <;> simp [ih]

/-- Rows counting an absent id: zero. -/
theorem count_id_eq_zero (rows : List Post) (pid : String)
    (h : post_id_exists rows pid = false) : count_id rows pid = 0 := by
  unfold count_id
  rw [List.length_eq_zero, List.filter_eq_nil_iff]
  intro p hp
  simp only [decide_eq_true_eq]
  intro hpid
  have : post_id_exists rows pid = true := by
    rw [post_id_exists_iff]
    exact List.mem_map.mpr ⟨p, hp, hpid⟩
  rw [this] at h
  simp at h

/-- Rows counting a present id: at least one. -/
theorem count_id_pos (rows : List Post) (pid : String)
    (h : post_id_exists rows pid = true) : 0 < count_id rows pid := by
  rw [post_id_exists_iff] at h
  obtain ⟨p, hp, hpid⟩ := List.mem_map.mp h
  unfold count_id
  rw [List.length_pos]
  intro hnil
  have : p ∈ rows.filter (fun q => q.post_id = pid) :=
    List.mem_filter.mpr ⟨hp, by simp [hpid]⟩
  rw [hnil] at this
  exact List.not_mem_nil p this

/-- Under the unique-id invariant every per-id row count is at most one. -/
theorem count_id_le_one (rows : List Post) (pid : String)
    (hinv : unique_ids rows) : count_id rows pid ≤ 1 := by
  induction rows with
  | nil => exact Nat.zero_le 1
  | cons p ps ih =>
      unfold unique_ids at hinv ih
      simp only [List.map_cons, List.nodup_cons] at hinv
      unfold count_id
      simp only [List.filter_cons]
      by_cases h : p.post_id = pid
      · rw [if_pos (by simp [h])]
        have hz : count_id ps pid = 0 := by
          apply count_id_eq_zero
          cases hex : post_id_exists ps pid
          · rfl
          · rw [post_id_exists_iff] at hex
            rw [h] at hinv
            exact absurd hex hinv.1
        unfold count_id at hz
        simp [hz]
      · rw [if_neg (by simp [h])]
        exact ih hinv.2

/-- The row the update branch touches: after update_first, looking the id up
finds the old row with the incoming fields applied. -/
theorem find?_update_first (rows : List Post) (d : PostData) (p : Post)
    (h : rows.find? (fun q => q.post_id = d.post_id) = some p) :
    (update_first rows d).find? (fun q => q.post_id = d.post_id) =
      some (apply_post_update d p) := by
  induction rows with
  | nil => simp at h
  | cons r rs ih =>
      unfold update_first
      by_cases hr : r.post_id = d.post_id
      · rw [if_pos hr]
        rw [List.find?_cons_of_pos _ (by simpa using hr)] at h
        have hrp : r = p := by injection h
        rw [List.find?_cons_of_pos _ (by simp [apply_post_update, hr]), hrp]
      · rw [if_neg hr]
        rw [List.find?_cons_of_neg _ (by simpa using hr)] at h
        rw [List.find?_cons_of_neg _ (by simpa using hr)]
        exact ih h

/-- Claim C6: idempotent upsert.  Under the one-row-per-external-id
invariant, save_post preserves the invariant; re-submitting a post whose
external id already exists reports it as updated (is_new = false), keeps
the row count and the per-id count at their old values (the per-id count
stays 1), and replaces the matched row's mutable fields with the incoming
ones in place; a post with an unseen external id reports new, adds exactly
one row, and leaves exactly one row with that id. -/
theorem idempotent_upsert (store : PostStore) (d : PostData)
    (hinv : unique_ids store.rows) :
    unique_ids (save_post store d).1.rows ∧
    (post_id_exists store.rows d.post_id = true →
      (save_post store d).2 = false ∧
      (save_post store d).1.rows.length = store.rows.length ∧
      count_id (save_post store d).1.rows d.post_id = 1 ∧
      ∀ p, store.rows.find? (fun q => q.post_id = d.post_id) = some p →
        (save_post store d).1.rows.find? (fun q => q.post_id = d.post_id) =
          some (apply_post_update d p)) ∧
    (post_id_exists store.rows d.post_id = false →
      (save_post store d).2 = true ∧
      (save_post store d).1.rows.length = store.rows.length + 1 ∧
      count_id (save_post store d).1.rows d.post_id = 1) := by
  by_cases hex : post_id_exists store.rows d.post_id = true
  · have hsave : save_post store d =
        ({ store with rows := update_first store.rows d }, false) := by
      unfold save_post
      rw [if_pos hex]
    rw [hsave]
    refine ⟨?_, ?_, ?_⟩
    · unfold unique_ids
      rw [update_first_map_post_id]
      exact hinv
    · intro _
      refine ⟨rfl, update_first_length store.rows d, ?_, ?_⟩
      · rw [count_id_update_first]
        have h1 := count_id_pos store.rows d.post_id hex
        have h2 := count_id_le_one store.rows d.post_id hinv
        omega
      · intro p hp
        exact find?_update_first store.rows d p hp
    · intro hfalse
      rw [hex] at hfalse
      simp at hfalse
  · have hex' : post_id_exists store.rows d.post_id = false := by
      cases h : post_id_exists store.rows d.post_id
      · rfl
      · exact absurd h hex
    have hsave : save_post store d =
        ({ rows := store.rows ++ [mk_new_post store.next_id d]
           next_id := store.next_id + 1 }, true) := by
      unfold save_post
      rw [if_neg (by simp [hex'])]
    rw [hsave]
    have hnotmem : d.post_id ∉ store.rows.map (fun p => p.post_id) := by
      intro hmem
      rw [← post_id_exists_iff] at hmem
      rw [hex'] at hmem
      simp at hmem
    refine ⟨?_, ?_, ?_⟩
    · unfold unique_ids
      rw [List.map_append]
      rw [List.nodup_append]
      refine ⟨hinv, List.nodup_singleton _, ?_⟩
      simp only [List.map_cons, List.map_nil]
      rw [List.disjoint_singleton]
      exact hnotmem
    · intro htrue
      rw [hex'] at htrue
      simp at htrue
    · intro _
      refine ⟨rfl, by simp, ?_⟩
      unfold count_id
      rw [List.filter_append]
      have h0 : store.rows.filter (fun p => p.post_id = d.post_id) = [] := by
        have := count_id_eq_zero store.rows d.post_id hex'
        unfold count_id at this
        rwa [List.length_eq_zero] at this
      rw [h0]
      simp [mk_new_post]

/-- Resubmission of the existing external id "111" with changed engagement
counters. -/
def pdResubmit : PostData :=
  { post_id := "111"
    content := "hello"
    url := "u1"
    reblogs_count := 9
    favourites_count := 9
    replies_count := 9
    is_reblog := false
    posted_at := 100 }

/-- A post with a fresh external id "333". -/
def pdFresh : PostData :=
  { post_id := "333"
    content := "new"
    url := "u3"
    reblogs_count := 0
    favourites_count := 0
    replies_count := 0
    is_reblog := false
    posted_at := 200 }

/-- Witness for claim C6: a concrete two-row table, resubmitting the
existing id with changed engagement counters and inserting a fresh id. -/
theorem idempotent_upsert_witness :
    (save_post storeW pdResubmit).2 = false ∧
    count_id (save_post storeW pdResubmit).1.rows "111" = 1 ∧
    (save_post storeW pdFresh).2 = true :=
  ⟨((idempotent_upsert storeW pdResubmit (by unfold unique_ids; decide)).2.1
      (by decide)).1,
   ((idempotent_upsert storeW pdResubmit (by unfold unique_ids; decide)).2.1
      (by decide)).2.2.1,
   ((idempotent_upsert storeW pdFresh (by unfold unique_ids; decide)).2.2
      (by decide)).1⟩

/-- One batch iteration never changes which external ids exist among the
visible (committed) rows: updates keep ids, and inserts go to the invisible
pending list (autoflush is off). -/
theorem step_post_id_exists (b : BatchAcc) (d : PostData) (pid : String) :
    post_id_exists (save_posts_batch_step b d).rows pid =
      post_id_exists b.rows pid := by
  unfold save_posts_batch_step
  by_cases h : post_id_exists b.rows d.post_id
  · rw [if_pos h]
    exact post_id_exists_update_first b.rows d pid
  · rw [if_neg h]

/-- Each batch iteration increments exactly one of the two counters. -/
theorem batch_fold_sum (ds : List PostData) (b : BatchAcc) :
    (ds.foldl save_posts_batch_step b).new_count +
      (ds.foldl save_posts_batch_step b).updated_count =
      b.new_count + b.updated_count + ds.length := by
  induction ds generalizing b with
  | nil => simp
  | cons d ds ih =>
      rw [List.foldl_cons]
      rw [ih (save_posts_batch_step b d)]
      unfold save_posts_batch_step
      by_cases h : post_id_exists b.rows d.post_id
      · rw [if_pos h]
        simp only [List.length_cons]
        omega
      · rw [if_neg h]
        simp only [List.length_cons]
        omega

/-- The two counters count exactly the inputs whose external id was present
(respectively absent) among the committed rows at the start of the batch —
the existence SELECT never sees the batch's own pending inserts. -/
theorem batch_fold_counts (ds : List PostData) (b : BatchAcc) :
    (ds.foldl save_posts_batch_step b).new_count =
      b.new_count +
        (ds.filter (fun d => !(post_id_exists b.rows d.post_id))).length ∧
    (ds.foldl save_posts_batch_step b).updated_count =
      b.updated_count +
        (ds.filter (fun d => post_id_exists b.rows d.post_id)).length := by
  induction ds generalizing b with
  | nil => simp
  | cons d ds ih =>
      rw [List.foldl_cons]
      have hpred : (fun x : PostData =>
          post_id_exists (save_posts_batch_step b d).rows x.post_id) =
          (fun x : PostData => post_id_exists b.rows x.post_id) := by
        funext x
        exact step_post_id_exists b d x.post_id
      have hpredn : (fun x : PostData =>
          !(post_id_exists (save_posts_batch_step b d).rows x.post_id)) =
          (fun x : PostData => !(post_id_exists b.rows x.post_id)) := by
        funext x
        rw [step_post_id_exists b d x.post_id]
      have hstep := ih (save_posts_batch_step b d)
      rw [hpred, hpredn] at hstep
      by_cases h : post_id_exists b.rows d.post_id
      · have hc1 : (save_posts_batch_step b d).new_count = b.new_count := by
          unfold save_posts_batch_step
          rw [if_pos h]
        have hc2 : (save_posts_batch_step b d).updated_count =
            b.updated_count + 1 := by
          unfold save_posts_batch_step
          rw [if_pos h]
        rw [hstep.1, hstep.2, hc1, hc2]
        constructor
        · rw [List.filter_cons]
          simp [h]
        · rw [List.filter_cons]
          simp only [h, if_pos]
          simp [List.length_cons]
          omega
      · have h' : post_id_exists b.rows d.post_id = false := by
          cases hx : post_id_exists b.rows d.post_id
          · rfl
          · exact absurd hx h
        have hc1 : (save_posts_batch_step b d).new_count = b.new_count + 1 := by
          unfold save_posts_batch_step
          rw [if_neg h]
        have hc2 : (save_posts_batch_step b d).updated_count =
            b.updated_count := by
          unfold save_posts_batch_step
          rw [if_neg h]
        rw [hstep.1, hstep.2, hc1, hc2]
        constructor
        · rw [List.filter_cons]
          simp only [h', Bool.not_false, if_pos]
          simp [List.length_cons]
          omega
        · rw [List.filter_cons]
          simp [h']

/-- Claim C10: for every input list, the batch upsert returns counters whose
sum is the length of the input — each element is counted exactly once — and
an element is counted as updated exactly when a committed row with its
post_id existed when it was processed (equivalently, at the start of the
batch: the session never flushes the batch's own inserts before commit) and
as new otherwise. -/
theorem save_posts_batch_counts (store : PostStore) (ds : List PostData) :
    (save_posts_batch store ds).2.1 + (save_posts_batch store ds).2.2 =
      ds.length ∧
    (save_posts_batch store ds).2.1 =
      (ds.filter (fun d => !(post_id_exists store.rows d.post_id))).length ∧
    (save_posts_batch store ds).2.2 =
      (ds.filter (fun d => post_id_exists store.rows d.post_id)).length := by
  unfold save_posts_batch
  have hs := batch_fold_sum ds
    { rows := store.rows, pending := [], next_id := store.next_id,
      new_count := 0, updated_count := 0 }
  have hc := batch_fold_counts ds
    { rows := store.rows, pending := [], next_id := store.next_id,
      new_count := 0, updated_count := 0 }
  simp only at hs hc ⊢
  exact ⟨by omega, by omega, by omega⟩

/-- The notification dispatch never writes is_first_run. -/
theorem notify_section_is_first_run (ncfg : NotificationConfig)
    (st : CycleState) (push : PushOutcome) (n : Nat) :
    (notify_section ncfg st push n).1.is_first_run = st.is_first_run := by
  unfold notify_section
  split
  · split <;> rfl
  · split <;> rfl

/-- A scrape cycle never resets is_first_run to true: once warm, always
warm. -/
theorem scrape_and_notify_warm (cfg : ScrapeConfig) (ncfg : NotificationConfig)
    (st : CycleState) (inp : CycleInput) (h : st.is_first_run = false) :
    (scrape_and_notify cfg ncfg st inp).1.is_first_run = false := by
  by_cases hskip : should_skip_scrape cfg (get_last_scrape_time st.log) inp.now = true
  · simp only [scrape_and_notify, hskip, if_true]
    unfold skip_path
    rw [h]
    simpa using h
  · have hskipf : should_skip_scrape cfg (get_last_scrape_time st.log) inp.now = false := by
      cases hx : should_skip_scrape cfg (get_last_scrape_time st.log) inp.now
      · rfl
      · exact absurd hx hskip
    cases hf : inp.fetch with
    | error e =>
        simp only [scrape_and_notify, hskipf, Bool.false_eq_true, if_false, hf]
        exact h
    | ok posts =>
        by_cases hp : posts.isEmpty
        · simp only [scrape_and_notify, hskipf, Bool.false_eq_true, if_false, hf,
            hp, if_true]
          exact h
        · have hpf : posts.isEmpty = false := by
            cases hx : posts.isEmpty
            · rfl
            · exact absurd hx hp
          simp only [scrape_and_notify, hskipf, Bool.false_eq_true, if_false, hf,
            hpf]
          rw [notify_section_is_first_run]
          exact h

/-- The startup sequence never resets is_first_run to true. -/
theorem startup_warm (cfg : ScrapeConfig) (ncfg : NotificationConfig)
    (st : CycleState) (inp : CycleInput) (h : st.is_first_run = false) :
    (startup_first_scrape cfg ncfg st inp).1.is_first_run = false := by
  simp only [startup_first_scrape]
  split
  · rfl
  · split
    · rfl
    · exact h

/-- With scraping enabled and no prior successful scrape, the startup
sequence runs the cycle immediately and then clears is_first_run
unconditionally. -/
theorem startup_cold_runs (cfg : ScrapeConfig) (ncfg : NotificationConfig)
    (st : CycleState) (inp : CycleInput) (hen : cfg.scrape_enabled = true)
    (hnone : get_last_scrape_time st.log = none) :
    (startup_first_scrape cfg ncfg st inp).1 =
      { (scrape_and_notify cfg ncfg st inp).1 with is_first_run := false } := by
  simp [startup_first_scrape, hnone, hen]

/-- A skipped cycle that finds a non-empty posts table clears
is_first_run. -/
theorem skip_nonempty_clears (cfg : ScrapeConfig) (ncfg : NotificationConfig)
    (st : CycleState) (inp : CycleInput)
    (hskip : should_skip_scrape cfg (get_last_scrape_time st.log) inp.now = true)
    (hrows : 0 < get_post_count st.store) :
    (scrape_and_notify cfg ncfg st inp).1.is_first_run = false := by
  simp only [scrape_and_notify, hskip, if_true]
  unfold skip_path
  cases hf : st.is_first_run
  · simp [hf]
  · simp [hf, hrows]

/-- A cycle input whose fetch returns no posts at all. -/
def inpEmptyOk : CycleInput :=
  { now := 500, hour_est := 12, fetch := Except.ok [], push := PushOutcome.success }

/-- Counterexample to claim C7: starting from last_scrape_at = None and an
empty store, the startup sequence runs the first cycle, the cycle's result
is empty (the store is still empty afterwards, so no backlog suppression can
have executed), and yet is_first_run is already false — the code clears the
flag unconditionally after the first immediate cycle (main.py start()),
contradicting the claim that the state stays COLD until backlog suppression
executes for the first non-empty result. -/
theorem first_run_cold_warm_cex :
    get_last_scrape_time stColdFeishu.log = none ∧
    get_post_count stColdFeishu.store = 0 ∧
    (startup_first_scrape cfgD ncfgD stColdFeishu inpEmptyOk).1.store.rows.length
      = 0 ∧
    (startup_first_scrape cfgD ncfgD stColdFeishu inpEmptyOk).1.is_first_run
      = false := by decide

/-- Claim C7 amended: is_first_run never transitions back to true (warm is
terminal), for scheduled cycles and the startup sequence alike; it is
cleared when the startup sequence runs its immediate first cycle —
unconditionally, whatever the cycle's newCount, even for an empty result —
or when a skipped cycle finds the posts table non-empty.  The
backlog-suppression path itself does not clear the flag.  In particular,
with last_scrape_at = None and scraping enabled the startup decision is run:
the startup result is exactly the cycle's result with is_first_run forced to
false. -/
theorem first_run_state_machine (cfg : ScrapeConfig) (ncfg : NotificationConfig)
    (st : CycleState) (inp : CycleInput) :
    (st.is_first_run = false →
      (scrape_and_notify cfg ncfg st inp).1.is_first_run = false) ∧
    (st.is_first_run = false →
      (startup_first_scrape cfg ncfg st inp).1.is_first_run = false) ∧
    (cfg.scrape_enabled = true → get_last_scrape_time st.log = none →
      (startup_first_scrape cfg ncfg st inp).1 =
        { (scrape_and_notify cfg ncfg st inp).1 with is_first_run := false }) ∧
    (should_skip_scrape cfg (get_last_scrape_time st.log) inp.now = true →
      0 < get_post_count st.store →
      (scrape_and_notify cfg ncfg st inp).1.is_first_run = false) :=
  ⟨scrape_and_notify_warm cfg ncfg st inp,
   startup_warm cfg ncfg st inp,
   startup_cold_runs cfg ncfg st inp,
   skip_nonempty_clears cfg ncfg st inp⟩

/-- A warm cycle state. -/
def stWarmFeishu : CycleState := { stColdFeishu with is_first_run := false }

/-- Witness for the amended claim C7 at concrete states. -/
theorem first_run_state_machine_witness :
    (startup_first_scrape cfgD ncfgD stColdFeishu inpEmptyOk).1 =
      { (scrape_and_notify cfgD ncfgD stColdFeishu inpEmptyOk).1 with
        is_first_run := false } ∧
    (scrape_and_notify cfgD ncfgD stWarmFeishu inpEmptyOk).1.is_first_run
      = false :=
  ⟨(first_run_state_machine cfgD ncfgD stColdFeishu inpEmptyOk).2.2.1 rfl rfl,
   (first_run_state_machine cfgD ncfgD stWarmFeishu inpEmptyOk).1 rfl⟩

/-- Counterexample to claim C8: at hour 2 the quiet window (0-7) makes the
target interval 21600, the active interval is 3600, the config is unchanged
— and the 5-minute reconciliation tick does nothing: _reload_config only
reschedules when the reload changed the normal or sleep interval fields, so
a quiet-boundary crossing with an unchanged config is NOT picked up by the
tick, only by the top of the next scrape cycle. -/
theorem reconcile_tick_cex :
    get_current_interval cfgD 2 = 21600 ∧
    (21600 : Int) ≠ 3600 ∧
    reload_config cfgD cfgD 3600 2 = (3600, ReconcileResult.unchanged) := by
  decide

/-- Claim C8 amended: reconciliation at the top of every scrape cycle rearms
whenever the target differs from the active interval (afterwards the active
interval always equals the target, and the result is unchanged exactly when
they already agreed); the independent 5-minute tick rearms only when the
reloaded config changed the normal or the sleep interval field — a config
change of the normal interval is picked up within one tick — but with an
unchanged config the tick never reschedules, so a quiet-window hour-boundary
crossing alone is reconciled only at the next scrape cycle, not within a
5-minute tick. -/
theorem interval_reconciliation_amended (old_cfg new_cfg : ScrapeConfig)
    (current hour : Int) :
    ((cycle_top_reconcile new_cfg current hour).1 =
      get_current_interval new_cfg hour) ∧
    ((cycle_top_reconcile new_cfg current hour).2 = ReconcileResult.unchanged ↔
      current = get_current_interval new_cfg hour) ∧
    (old_cfg.normal_scrape_interval ≠ new_cfg.normal_scrape_interval →
      (reload_config old_cfg new_cfg current hour).1 =
        get_current_interval new_cfg hour) ∧
    (reload_config old_cfg old_cfg current hour =
      (current, ReconcileResult.unchanged)) := by
  refine ⟨?_, ?_, ?_, ?_⟩
  · unfold cycle_top_reconcile
    by_cases h : get_current_interval new_cfg hour ≠ current
    · rw [if_pos h]
    · rw [if_neg h]
      push_neg at h
      exact h.symm
  · unfold cycle_top_reconcile
    by_cases h : get_current_interval new_cfg hour ≠ current
    · rw [if_pos h]
      simp
      exact fun hc => absurd hc.symm h
    · rw [if_neg h]
      push_neg at h
      simp [h]
  · intro hch
    unfold reload_config
    rw [if_pos (Or.inl hch)]
    by_cases h : get_current_interval new_cfg hour ≠ current
    · rw [if_pos h]
    · rw [if_neg h]
      push_neg at h
      exact h.symm
  · unfold reload_config
    rw [if_neg (by simp)]

/-- The default configuration with the normal interval halved to 1800. -/
def cfgHalf : ScrapeConfig := { cfgD with normal_scrape_interval := 1800 }

/-- Witness for the amended claim C8: the spec's example — a config change
from normal=3600 to normal=1800 while in the normal window — is rearmed to
the new target by the very next reconciliation tick. -/
theorem interval_reconciliation_amended_witness :
    (reload_config cfgD cfgHalf 3600 12).1 = get_current_interval cfgHalf 12 :=
  (interval_reconciliation_amended cfgD cfgHalf 3600 12).2.2.1 (by decide)

/-- The default full runtime configuration. -/
def rcfgD : RuntimeCfg :=
  { scrape := cfgD, notification := ncfgD, translate_enabled := true }

/-- A config-manager state whose in-memory and persisted layers both hold
the default configuration. -/
def cmsD : ConfigManagerState := { mem := rcfgD, db := some rcfgD }

/-- Counterexample to claim C9: a scrape-config update whose database save
fails is reported as a failure (the REST layer turns this into a 500), yet
the configuration observed by subsequent scheduler decisions is NOT
unchanged — update_scrape replaces the in-memory section before attempting
the save, so the new value is already active. -/
theorem config_write_failure_cex :
    (update_scrape cmsD cfgHalf false).2 = false ∧
    (update_scrape cmsD cfgHalf false).1.mem.scrape ≠ cmsD.mem.scrape ∧
    (update_scrape cmsD cfgHalf false).1.mem.scrape = cfgHalf := by decide

/-- Claim C9 amended: a failed configuration save is reported as a
request-scoped failure and the persisted layer is unchanged, but the
in-memory active configuration — the one subsequent scheduler decisions
read — has already been replaced by the new value; the prior configuration
becomes active again only when a later successful reload re-reads the
persisted layer. -/
theorem config_write_failure_amended (s : ConfigManagerState)
    (c : ScrapeConfig) :
    ((update_scrape s c false).2 = false) ∧
    ((update_scrape s c false).1.db = s.db) ∧
    ((update_scrape s c false).1.mem.scrape = c) ∧
    (∀ d, s.db = some d →
      (load_from_db (update_scrape s c false).1 true).1.mem = d) := by
  refine ⟨rfl, rfl, rfl, ?_⟩
  intro d hd
  simp [update_scrape, save_to_db, load_from_db, hd]

/-- Witness for the amended claim C9 at the concrete manager state. -/
theorem config_write_failure_amended_witness :
    (load_from_db (update_scrape cmsD cfgHalf false).1 true).1.mem = rcfgD :=
  (config_write_failure_amended cmsD cfgHalf).2.2.2 rcfgD rfl
